import Mathlib

/-!
Verification of the AnalyticsAgent repository: a shallow embedding in Lean 4
of the YouTube analytics fetch-transform-normalize pipeline
(`src/unnamed/part_000`, the main script) and of the shared helpers in
`src/yt-analytics-only/src/utils.js`.

JavaScript values that flow through the pipeline (parsed JSON plus
`undefined`) are modelled by the inductive type `JValue`.  Machine numbers
are modelled as `Int`: every numeric value the pipeline manipulates is an
integral JSON number, and the modelled fragment of JavaScript numeric
coercion (`Number(...)`) covers integer literals; `NaN` is modelled as
`Option.none` of the coercion.  Network effects are modelled by passing the
decoded HTTP responses as explicit arguments; `process.exit(1)` is modelled
as `Except.error`.
-/

set_option autoImplicit false

namespace AnalyticsAgent

/-- A JavaScript value as seen by the pipeline: the JSON grammar extended
with `undefined` (absent property / out-of-range index). -/
inductive JValue where
  | vNull
  | vUndefined
  | vBool (b : Bool)
  | vNum (n : Int)
  | vStr (s : String)
  | vArr (xs : List JValue)
  | vObj (fields : List (String × JValue))

/-- JavaScript truthiness of a value (`if (v)`). Every array and object is
truthy; `0`, the empty string, `null` and `undefined` are falsy. -/
def truthy : JValue → Bool
  | .vNull => false
  | .vUndefined => false
  | .vBool b => b
  | .vNum n => n != 0
  | .vStr s => s != ""
  | .vArr _ => true
  | .vObj _ => true

mutual

/-- JavaScript string conversion `String(v)` for the modelled fragment. -/
def jsToString : JValue → String
  | .vNull => "null"
  | .vUndefined => "undefined"
  | .vBool b => cond b "true" "false"
  | .vNum n => toString n
  | .vStr s => s
  | .vArr xs => jsArrayToString xs
  | .vObj _ => "[object Object]"

/-- `Array.prototype.toString`: elements joined by commas. -/
def jsArrayToString : List JValue → String
  | [] => ""
  | [x] => jsElemToString x
  | x :: xs => jsElemToString x ++ "," ++ jsArrayToString xs

/-- Inside an array-to-string conversion, `null` and `undefined` elements
render as the empty string. -/
def jsElemToString : JValue → String
  | .vNull => ""
  | .vUndefined => ""
  | v => jsToString v

end

/-- Value of a decimal digit character, `none` for a non-digit. -/
def digitVal (c : Char) : Option Nat :=
  if c.isDigit then some (c.toNat - 48) else none

/-- Reads a nonempty all-digit character list as a natural number;
`none` when empty or containing a non-digit. -/
def parseDigits : List Char → Option Nat
  | [] => none
  | cs => cs.foldl
      (fun acc c =>
        match acc, digitVal c with
        | some n, some d => some (n * 10 + d)
        | _, _ => none)
      (some 0)

/-- JavaScript string-to-number coercion `Number(s)` on the modelled
fragment (trimmed optionally-signed decimal integer literals; the empty
string coerces to `0`).  `none` models `NaN`. -/
def parseJsNumber (s : String) : Option Int :=
  let t := s.trim
  if t = "" then some 0
  else
    match t.toList with
    | '-' :: rest => (parseDigits rest).map (fun n => -(n : Int))
    | '+' :: rest => (parseDigits rest).map (fun n => (n : Int))
    | cs => (parseDigits cs).map (fun n => (n : Int))

/-- JavaScript numeric coercion `Number(v)`; `none` models `NaN`.
Arrays coerce through their string conversion, objects to `NaN`. -/
def toNumber : JValue → Option Int
  | .vNum n => some n
  | .vNull => some 0
  | .vUndefined => none
  | .vBool b => some (cond b 1 0)
  | .vStr s => parseJsNumber s
  | .vArr xs => parseJsNumber (jsArrayToString xs)
  | .vObj _ => none

/-- JavaScript property access `v[k]`: the value of the last binding of the
key (later duplicate keys override earlier ones), `undefined` when the key
is absent or the value is not an object. -/
def objGet : JValue → String → JValue
  | .vObj fs, k => fs.foldl (fun acc p => if p.1 = k then p.2 else acc) .vUndefined
  | _, _ => .vUndefined

/-- Destructuring default: replaces `undefined` (and only `undefined`)
by the default value. -/
def defaultTo (d : JValue) : JValue → JValue
  | .vUndefined => d
  | v => v

/-- Key list of an object value, `[]` for non-objects. -/
def objKeys : JValue → List String
  | .vObj fs => fs.map (fun p => p.1)
  | _ => []

/-- Embedding of `standardize` from `src/yt-analytics-only/src/utils.js`:
destructures the eight known fields of the input object, applying the
defaults `created_at = null`, `text = null`, `hashtags = []`,
`metrics = empty object`, `extra = empty object`, and rebuilds an object
with exactly those eight fields (any other input key is discarded).
The embedding covers object inputs, the only way the pipeline calls it. -/
def standardize (input : JValue) : JValue :=
  .vObj
    [ ("platform", objGet input "platform")
    , ("post_id", objGet input "post_id")
    , ("permalink", objGet input "permalink")
    , ("created_at", defaultTo .vNull (objGet input "created_at"))
    , ("text", defaultTo .vNull (objGet input "text"))
    , ("hashtags", defaultTo (.vArr []) (objGet input "hashtags"))
    , ("metrics", defaultTo (.vObj []) (objGet input "metrics"))
    , ("extra", defaultTo (.vObj []) (objGet input "extra"))
    ]

/-- The eight field names of a standardized record, in output order. -/
def stdKeys : List String :=
  ["platform", "post_id", "permalink", "created_at", "text", "hashtags",
   "metrics", "extra"]

/-!
The metrics transform (`transformRows` in the main script).
Column headers are modelled by their `name` property: `none` for a header
object without a (string) name.
-/

/-- Embedding of the header-to-index map of `transformRows`: the `Map` is
populated with `header.name ↦ index` for every header with a truthy name
(so an empty-string name is never inserted, and a duplicate name keeps the
last index), and `headerIdx headers key` is what `headerIndex.get(key)`
returns. -/
def headerIdx (headers : List (Option String)) (key : String) : Option Nat :=
  headers.enum.foldl
    (fun acc p => if p.2 = some key ∧ key ≠ "" then some p.1 else acc)
    none

/-- Row indexing `row[idx]`: `undefined` beyond the end of the row. -/
def rowGet (row : List JValue) (i : Nat) : JValue :=
  (row.get? i).getD .vUndefined

/-- Embedding of the `getNumber` helper of `transformRows`: looks the key
up in the header index (missing column yields `0`), coerces the cell with
`Number(...)` and maps `NaN` to `0`. -/
def getNumber (headers : List (Option String)) (row : List JValue)
    (key : String) : Int :=
  match headerIdx headers key with
  | none => 0
  | some idx =>
      match toNumber (rowGet row idx) with
      | none => 0
      | some n => n

/-- Embedding of the `getString` helper of `transformRows`: missing column
yields `""`; a string cell is returned as is; any other cell is converted
with `String(value ?? "")`, so `null` and `undefined` yield `""`. -/
def getString (headers : List (Option String)) (row : List JValue)
    (key : String) : String :=
  match headerIdx headers key with
  | none => ""
  | some idx =>
      match rowGet row idx with
      | .vStr s => s
      | .vNull => ""
      | .vUndefined => ""
      | v => jsToString v

/-- The per-video metrics object of a transformed row. -/
structure Metrics where
  views : Int
  watch_time_minutes : Int
  watch_time_seconds : Int
  average_view_duration_sec : Int
  likes : Int
  comments : Int
  shares : Int
deriving Repr, DecidableEq

/-- A transformed analytics row: a video id plus its metrics. -/
structure MetricsRow where
  videoId : String
  metrics : Metrics
deriving Repr, DecidableEq

/-- The `rows` argument of `transformRows`: either a JSON array of rows or
some non-array value (`null`, a number, an object, ...). -/
inductive RowsInput where
  | arr (rows : List (List JValue))
  | nonArray

/-- Body of the `rows.map` callback of `transformRows`. -/
def transformRow (headers : List (Option String)) (row : List JValue) :
    MetricsRow :=
  let videoId := getString headers row "video"
  let watchTimeMinutes := getNumber headers row "estimatedMinutesWatched"
  let averageViewDuration := getNumber headers row "averageViewDuration"
  { videoId := videoId
    metrics :=
      { views := getNumber headers row "views"
        watch_time_minutes := watchTimeMinutes
        watch_time_seconds := watchTimeMinutes * 60
        average_view_duration_sec := averageViewDuration
        likes := getNumber headers row "likes"
        comments := getNumber headers row "comments"
        shares := getNumber headers row "shares" } }

/-- Embedding of `transformRows`: an empty or non-array row list yields
`[]`; otherwise every row is transformed by column-name lookup. -/
def transformRows (headers : List (Option String)) (rows : RowsInput) :
    List MetricsRow :=
  match rows with
  | .nonArray => []
  | .arr rs => if rs.isEmpty then [] else rs.map (transformRow headers)

/-!
Metadata enrichment (`fetchVideoMetadata`) and normalization (`main`).
-/

/-- The per-video metadata accumulated by `fetchVideoMetadata`. -/
structure VideoMetadata where
  title : Option String
  description : Option String
  tags : List String
  publishedAt : Option String
  privacyStatus : Option String
deriving Repr, DecidableEq

/-- One item of a metadata response payload: the fields of
`item.snippet` and `item.status` that `fetchVideoMetadata` reads, with
`none` for an absent (or `null`) property.  `tags` is `none` when
`snippet.tags` is absent or not an array. -/
structure PayloadItem where
  id : Option String
  title : Option String
  description : Option String
  tags : Option (List String)
  publishedAt : Option String
  privacyStatus : Option String
deriving Repr, DecidableEq

/-- The `VideoMetadata` stored for a payload item. -/
def metaOfItem (item : PayloadItem) : VideoMetadata :=
  { title := item.title
    description := item.description
    tags := item.tags.getD []
    publishedAt := item.publishedAt
    privacyStatus := item.privacyStatus }

/-- Embedding of the metadata accumulation of `fetchVideoMetadata`, as the
lookup function of the resulting `Map`: items without a truthy `id` (absent
or empty-string id) are skipped, and a later item with the same id
overrides an earlier one (`Map.set`). -/
def metadataMapOf (items : List PayloadItem) (k : String) :
    Option VideoMetadata :=
  items.foldl
    (fun acc item =>
      match item.id with
      | none => acc
      | some i => if i = "" then acc else if i = k then some (metaOfItem item) else acc)
    none

/-- Embedding of the chunk loop of `fetchVideoMetadata`
(`for (let i = 0; i < videoIds.length; i += chunkSize)` with
`chunkSize = 50`): the successive `videoIds.slice(i, i + 50)` slices, one
per metadata request issued. -/
def metadataChunks : List String → List (List String)
  | [] => []
  | x :: xs => (x :: xs).take 50 :: metadataChunks ((x :: xs).drop 50)
termination_by ids => ids.length
decreasing_by simp [List.length_drop]; omega

/-- The video-id list sent to metadata enrichment
(`rawRecords.map((entry) => entry.videoId).filter(Boolean)` in `main`):
falsy (empty-string) ids are dropped. -/
def videoIdsOf (rs : List MetricsRow) : List String :=
  (rs.map (fun r => r.videoId)).filter (fun s => s != "")

/-- The drop test of the normalization step in `main`:
`meta?.privacyStatus && meta.privacyStatus !== 'public'`.  By JavaScript
truthiness an absent metadata entry, an absent/`null` privacyStatus and an
empty-string privacyStatus all fail the first conjunct, so the record is
kept. -/
def metaDropped : Option VideoMetadata → Bool
  | none => false
  | some m =>
      match m.privacyStatus with
      | none => false
      | some s => s != "" && s != "public"

/-- `Option String` to JavaScript: `none` becomes `null`
(`meta?.field ?? null`). -/
def optToJson : Option String → JValue
  | none => .vNull
  | some s => .vStr s

/-- The metrics object serialized into a record. -/
def metricsToJson (m : Metrics) : JValue :=
  .vObj
    [ ("views", .vNum m.views)
    , ("watch_time_minutes", .vNum m.watch_time_minutes)
    , ("watch_time_seconds", .vNum m.watch_time_seconds)
    , ("average_view_duration_sec", .vNum m.average_view_duration_sec)
    , ("likes", .vNum m.likes)
    , ("comments", .vNum m.comments)
    , ("shares", .vNum m.shares)
    ]

/-- The `extra` argument of `standardize` in `main`:
`meta?.title ? { title: meta.title } : empty object` — populated only when
the metadata title is truthy (present and nonempty). -/
def extraOf : Option VideoMetadata → JValue
  | none => .vObj []
  | some m =>
      match m.title with
      | none => .vObj []
      | some t => if t ≠ "" then .vObj [("title", .vStr t)] else .vObj []

/-- Body of the `rawRecords.map` callback in `main`: looks the video's
metadata up, applies the privacy drop test, and otherwise standardizes the
record (`none` models the `null` later removed by `.filter(Boolean)`). -/
def buildRecord (mm : String → Option VideoMetadata) (r : MetricsRow) :
    Option JValue :=
  let meta := mm r.videoId
  if metaDropped meta then none
  else
    some (standardize (.vObj
      [ ("platform", .vStr "youtube")
      , ("post_id", .vStr r.videoId)
      , ("permalink", .vStr ("https://www.youtube.com/watch?v=" ++ r.videoId))
      , ("created_at", optToJson ((meta.bind (fun m => m.publishedAt))))
      , ("text", optToJson ((meta.bind (fun m => m.description))))
      , ("hashtags", .vArr (((meta.map (fun m => m.tags)).getD []).map .vStr))
      , ("metrics", metricsToJson r.metrics)
      , ("extra", extraOf meta)
      ]))

/-- The normalization step of `main`:
`rawRecords.map(buildRecord).filter(Boolean)`. -/
def normalize (mm : String → Option VideoMetadata) (rs : List MetricsRow) :
    List JValue :=
  rs.filterMap (buildRecord mm)

/-!
Token exchange and the sequential pipeline of `main`.  Each network
response is passed in decoded; `process.exit(1)` is modelled as
`Except.error`, and the requests actually issued are recorded in a trace.
-/

/-- A decoded HTTP response: the `response.ok` flag and the parsed JSON
body (`response.json()`). -/
structure HttpResponse where
  ok : Bool
  body : JValue

/-- Embedding of `exchangeRefreshToken`: a non-ok response or a response
body without a truthy `access_token` field terminates the run
(`process.exit(1)`, modelled as `Except.error`); otherwise the access
token is returned. -/
def exchangeRefreshToken (resp : HttpResponse) : Except String JValue :=
  if !resp.ok then
    .error "Failed to refresh access token"
  else if !truthy (objGet resp.body "access_token") then
    .error "Access token not present in refresh token response."
  else
    .ok (objGet resp.body "access_token")

/-- A decoded analytics response: the `response.ok` flag plus the
`columnHeaders` and `rows` of the payload. -/
structure AnalyticsResponse where
  ok : Bool
  columnHeaders : List (Option String)
  rows : RowsInput

/-- A decoded metadata response for one chunk: the `response.ok` flag plus
the `items` of the payload. -/
structure MetaResponse where
  ok : Bool
  items : List PayloadItem

/-- One outbound API request of the main pipeline. -/
inductive ApiCall where
  | tokenExchange
  | analytics
  | metadata (chunkIds : List String)
deriving Repr, DecidableEq

/-- Whether an `Except` models a fatal `process.exit(1)`. -/
def isFatal {ε α : Type} : Except ε α → Bool
  | .error _ => true
  | .ok _ => false

/-- The sequential chunk loop of `fetchVideoMetadata`: one metadata request
per chunk, aborting the run on the first non-ok response, accumulating the
payload items in request order otherwise. -/
def runMetaChunks (mResp : List String → MetaResponse) :
    List (List String) → List ApiCall × Except String (List PayloadItem)
  | [] => ([], .ok [])
  | c :: cs =>
      let resp := mResp c
      if !resp.ok then
        ([.metadata c], .error "Failed to fetch video metadata")
      else
        let rest := runMetaChunks mResp cs
        (.metadata c :: rest.1,
         match rest.2 with
         | .error e => .error e
         | .ok items => .ok (resp.items ++ items))

/-- Embedding of the pipeline of `main` after the environment check:
token exchange, analytics fetch, row transform, metadata enrichment over
50-id chunks, and normalization.  The first component is the trace of API
requests issued, the second the outcome (the final record list, or the
fatal error that terminated the process). -/
def runPipeline (tokenResp : HttpResponse) (aResp : AnalyticsResponse)
    (mResp : List String → MetaResponse) :
    List ApiCall × Except String (List JValue) :=
  match exchangeRefreshToken tokenResp with
  | .error e => ([.tokenExchange], .error e)
  | .ok _tok =>
      if !aResp.ok then
        ([.tokenExchange, .analytics], .error "Failed to fetch analytics")
      else
        let raw := transformRows aResp.columnHeaders aResp.rows
        let ids := videoIdsOf raw
        let chunkRun := runMetaChunks mResp (metadataChunks ids)
        (.tokenExchange :: .analytics :: chunkRun.1,
         match chunkRun.2 with
         | .error e => .error e
         | .ok items => .ok (normalize (metadataMapOf items) raw))

/-!
The analytics date window (`fetchAnalytics`).  A calendar date is modelled
as its day number since the Unix epoch (1970-01-01 is day 0); `date-fns`
`subDays` subtracts calendar days, and `format(d, 'yyyy-MM-dd')` renders
the civil date.
-/

/-- `date-fns` `subDays` on epoch-day numbers. -/
def subDays (day n : Nat) : Nat := day - n

/-- Civil date (year, month, day) of an epoch-day number, by the standard
era-based conversion (valid for every day on or after the epoch). -/
def civilFromDays (z0 : Nat) : Nat × Nat × Nat :=
  let z := z0 + 719468
  let era := z / 146097
  let doe := z % 146097
  let yoe := (doe - doe / 1460 + doe / 36524 - doe / 146096) / 365
  let y := yoe + era * 400
  let doy := doe - (365 * yoe + yoe / 4 - yoe / 100)
  let mp := (5 * doy + 2) / 153
  let d := doy - (153 * mp + 2) / 5 + 1
  let m := if mp < 10 then mp + 3 else mp - 9
  (if m ≤ 2 then y + 1 else y, m, d)

/-- Zero-pads a number to two digits. -/
def pad2 (n : Nat) : String :=
  if n < 10 then "0" ++ toString n else toString n

/-- Zero-pads a number to four digits. -/
def pad4 (n : Nat) : String :=
  if n < 10 then "000" ++ toString n
  else if n < 100 then "00" ++ toString n
  else if n < 1000 then "0" ++ toString n
  else toString n

/-- `format(d, 'yyyy-MM-dd')` of an epoch-day number. -/
def formatDate (day : Nat) : String :=
  let c := civilFromDays day
  pad4 c.1 ++ "-" ++ pad2 c.2.1 ++ "-" ++ pad2 c.2.2

/-- The date window computed by `fetchAnalytics`:
`(subDays(today, 28), today)` as epoch-day numbers. -/
def analyticsWindowDays (today : Nat) : Nat × Nat :=
  (subDays today 28, today)

/-- Number of calendar days a window covers, both endpoints counted. -/
def inclusiveSpanDays (w : Nat × Nat) : Nat := w.2 - w.1 + 1

/-- The query parameters `fetchAnalytics` sets on the report URL. -/
structure AnalyticsQuery where
  ids : String
  startDate : String
  endDate : String
  dimensions : String
  metrics : String
  sort : String
  maxResults : String
deriving Repr, DecidableEq

/-- Embedding of the query construction of `fetchAnalytics`, as a function
of today's epoch-day number. -/
def analyticsQuery (today : Nat) : AnalyticsQuery :=
  let w := analyticsWindowDays today
  { ids := "channel==MINE"
    startDate := formatDate w.1
    endDate := formatDate w.2
    dimensions := "video"
    metrics :=
      "views,estimatedMinutesWatched,averageViewDuration,comments,likes,shares"
    sort := "-views"
    maxResults := "200" }

/-!
Concrete inputs reused by several statements below.
-/

/-- The column headers of the spec's transform scenario. -/
def scenarioHeaders : List (Option String) :=
  [some "video", some "views", some "estimatedMinutesWatched",
   some "averageViewDuration", some "likes", some "comments", some "shares"]

/-- The single row of the spec's transform scenario. -/
def scenarioRow : List JValue :=
  [.vStr "abc123", .vNum 100, .vNum 50, .vNum 30, .vNum 5, .vNum 2, .vNum 1]

/-- An all-zero metrics object. -/
def zeroMetrics : Metrics :=
  { views := 0, watch_time_minutes := 0, watch_time_seconds := 0,
    average_view_duration_sec := 0, likes := 0, comments := 0, shares := 0 }

/-!
Helper lemmas.
-/

/-- Every chunk produced by the metadata chunk loop holds at most 50 ids. -/
lemma metadataChunks_chunk_le (ids : List String) :
    ∀ c ∈ metadataChunks ids, c.length ≤ 50 := by
  induction ids using metadataChunks.induct with
  | case1 => intro c hc; simp [metadataChunks] at hc
  | case2 x xs ih =>
      intro c hc
      rw [metadataChunks] at hc
      rcases List.mem_cons.mp hc with h | h
      · subst h; exact List.length_take_le 50 (x :: xs)
      · exact ih c h

/-- The metadata chunk loop issues `⌈n / 50⌉` requests for `n` input ids. -/
lemma metadataChunks_count (ids : List String) :
    (metadataChunks ids).length = (ids.length + 49) / 50 := by
  induction ids using metadataChunks.induct with
  | case1 => rw [metadataChunks]; rfl
  | case2 x xs ih =>
      rw [metadataChunks, List.length_cons, ih, List.length_drop]
      rw [List.length_cons]
      omega

/-!
Claim theorems.
-/

/-- C2 counterexample: on the concrete day 20000 of the Unix epoch
(2024-10-04), the window `fetchAnalytics` computes runs from 2024-09-06 to
2024-10-04, which is 29 calendar days counted inclusively — not 28 as the
claim states. -/
theorem analytics_window_counterexample :
    (analyticsQuery 20000).startDate = "2024-09-06" ∧
    (analyticsQuery 20000).endDate = "2024-10-04" ∧
    inclusiveSpanDays (analyticsWindowDays 20000) = 29 ∧
    inclusiveSpanDays (analyticsWindowDays 20000) ≠ 28 :=
  ⟨rfl, rfl, rfl, by decide⟩

/-- C2 (amended): the metrics fetch computes a date window ending today
whose start date is `subDays(today, 28)`, i.e. exactly 28 days before the
end date, so the window spans exactly 29 calendar days counted
inclusively; both endpoints are sent formatted as `yyyy-MM-dd`. -/
theorem analytics_window_span (today : Nat) (h : 28 ≤ today) :
    (analyticsQuery today).startDate = formatDate (subDays today 28) ∧
    (analyticsQuery today).endDate = formatDate today ∧
    today - subDays today 28 = 28 ∧
    inclusiveSpanDays (analyticsWindowDays today) = 29 := by
  refine ⟨rfl, rfl, ?_, ?_⟩
  · rw [subDays]; omega
  · rw [inclusiveSpanDays, analyticsWindowDays, subDays]; omega

/-- C2 witness: the amended window property evaluated at day 20000. -/
theorem analytics_window_span_witness :
    (analyticsQuery 20000).startDate = formatDate (subDays 20000 28) ∧
    (analyticsQuery 20000).endDate = formatDate 20000 ∧
    20000 - subDays 20000 28 = 28 ∧
    inclusiveSpanDays (analyticsWindowDays 20000) = 29 :=
  analytics_window_span 20000 (by decide)

/-- C5: metadata enrichment requests at most 50 ids per call, and an input
of `N` distinct ids yields exactly `⌈N / 50⌉` calls (in particular zero
calls for an empty input). -/
theorem metadata_batching (ids : List String) (_h : ids.Nodup) :
    (∀ c ∈ metadataChunks ids, c.length ≤ 50) ∧
    (metadataChunks ids).length = (ids.length + 49) / 50 ∧
    (ids = [] → metadataChunks ids = []) :=
  ⟨metadataChunks_chunk_le ids, metadataChunks_count ids,
   fun he => by rw [he, metadataChunks]⟩

/-- C5 witness: the batching property evaluated on two distinct ids. -/
theorem metadata_batching_witness :
    (∀ c ∈ metadataChunks ["a", "b"], c.length ≤ 50) ∧
    (metadataChunks ["a", "b"]).length = (["a", "b"].length + 49) / 50 ∧
    (["a", "b"] = ([] : List String) → metadataChunks ["a", "b"] = []) :=
  metadata_batching ["a", "b"] (by decide)

/-- C6: the spec's transform scenario — one row under the seven named
headers yields exactly one metrics row with the stated values, with
`watch_time_seconds = 50 * 60 = 3000`. -/
theorem transform_scenario :
    transformRows scenarioHeaders (.arr [scenarioRow]) =
      [{ videoId := "abc123",
         metrics := { views := 100, watch_time_minutes := 50,
                      watch_time_seconds := 3000,
                      average_view_duration_sec := 30, likes := 5,
                      comments := 2, shares := 1 } }] := by
  decide

/-- C3: every transformed row satisfies
`watch_time_seconds = watch_time_minutes * 60`, and its
`watch_time_minutes` comes from the `estimatedMinutesWatched` column — so
`watch_time_seconds` is derived, never extracted from the row itself. -/
theorem watch_time_seconds_eq (headers : List (Option String))
    (rows : List (List JValue)) (r : MetricsRow)
    (hr : r ∈ transformRows headers (.arr rows)) :
    r.metrics.watch_time_seconds = r.metrics.watch_time_minutes * 60 ∧
    ∃ row ∈ rows, r = transformRow headers row ∧
      r.metrics.watch_time_minutes =
        getNumber headers row "estimatedMinutesWatched" := by
  rcases rows with _ | ⟨row0, rest⟩
  · simp [transformRows] at hr
  · rw [transformRows, if_neg (by simp)] at hr
    obtain ⟨row, hrow, hEq⟩ := List.mem_map.mp hr
    subst hEq
    exact ⟨rfl, row, hrow, rfl, rfl⟩

/-- C3 witness: the derivation property evaluated on the scenario row. -/
theorem watch_time_seconds_eq_witness :
    (transformRow scenarioHeaders scenarioRow).metrics.watch_time_seconds =
      (transformRow scenarioHeaders scenarioRow).metrics.watch_time_minutes
        * 60 :=
  (watch_time_seconds_eq scenarioHeaders [scenarioRow]
      (transformRow scenarioHeaders scenarioRow)
      (by rw [transformRows, if_neg (by simp)]; simp)).1

/-- C4: each named numeric metric of a transformed row is `getNumber` of
its column, and `getNumber` returns the coerced value when the column
exists and the cell is numeric-coercible, and `0` when the column is
missing from the headers or the cell is not numeric-coercible. -/
theorem numeric_metric_extraction (headers : List (Option String))
    (row : List JValue) (key : String) :
    ((transformRow headers row).metrics.views =
        getNumber headers row "views" ∧
     (transformRow headers row).metrics.watch_time_minutes =
        getNumber headers row "estimatedMinutesWatched" ∧
     (transformRow headers row).metrics.average_view_duration_sec =
        getNumber headers row "averageViewDuration" ∧
     (transformRow headers row).metrics.likes =
        getNumber headers row "likes" ∧
     (transformRow headers row).metrics.comments =
        getNumber headers row "comments" ∧
     (transformRow headers row).metrics.shares =
        getNumber headers row "shares") ∧
    (∀ i n, headerIdx headers key = some i →
       toNumber (rowGet row i) = some n → getNumber headers row key = n) ∧
    (headerIdx headers key = none → getNumber headers row key = 0) ∧
    (∀ i, headerIdx headers key = some i →
       toNumber (rowGet row i) = none → getNumber headers row key = 0) := by
  refine ⟨⟨rfl, rfl, rfl, rfl, rfl, rfl⟩, ?_, ?_, ?_⟩
  · intro i n hi hn; simp [getNumber, hi, hn]
  · intro h; simp [getNumber, h]
  · intro i hi hn; simp [getNumber, hi, hn]

/-- C4 witness: a numeric-coercible cell comes through unchanged; a metric
whose column is missing from the headers evaluates to 0. -/
theorem numeric_metric_extraction_witness :
    getNumber [some "views"] [JValue.vNum 100] "views" = 100 ∧
    getNumber [some "views"] [JValue.vNum 100] "likes" = 0 :=
  ⟨(numeric_metric_extraction [some "views"] [JValue.vNum 100] "views").2.1
      0 100 rfl rfl,
   (numeric_metric_extraction [some "views"] [JValue.vNum 100] "likes").2.2.1
      rfl⟩

/-- C7: the transform is total on malformed input — a non-array or empty
row list yields `[]`, and a lookup that lands beyond the end of a short
row yields the defaults (`0` for numbers, `""` for strings) instead of an
error. -/
theorem transform_total_on_malformed (headers : List (Option String)) :
    transformRows headers .nonArray = [] ∧
    transformRows headers (.arr []) = [] ∧
    ∀ (row : List JValue) (key : String) (i : Nat),
      headerIdx headers key = some i → row.length ≤ i →
      getNumber headers row key = 0 ∧ getString headers row key = "" := by
  refine ⟨rfl, rfl, ?_⟩
  intro row key i hi hlen
  have hget : rowGet row i = .vUndefined := by
    rw [rowGet, List.get?_eq_none.mpr hlen]; rfl
  constructor
  · simp [getNumber, hi, hget, toNumber]
  · simp [getString, hi, hget]

/-- C7 witness: malformed-input totality evaluated with a single-header
table and an empty row. -/
theorem transform_total_on_malformed_witness :
    transformRows [some "views"] .nonArray = [] ∧
    getNumber [some "views"] [] "views" = 0 ∧
    getString [some "views"] [] "views" = "" := by
  have h := transform_total_on_malformed [some "views"]
  have h3 := h.2.2 [] "views" 0 rfl (by decide)
  exact ⟨h.1, h3.1, h3.2⟩

/-- A token response that is HTTP-successful but carries no
`access_token` field. -/
def tokenRespMissing : HttpResponse :=
  { ok := true, body := .vObj [("token_type", .vStr "Bearer")] }

/-- A trivially successful analytics response with no data. -/
def aRespTrivial : AnalyticsResponse :=
  { ok := true, columnHeaders := [], rows := .arr [] }

/-- Trivially successful metadata responses. -/
def mRespTrivial : List String → MetaResponse :=
  fun _ => { ok := true, items := [] }

/-- C8: if the token-exchange response is successful but its body lacks an
`access_token` field, the run terminates fatally (`process.exit(1)`,
modelled as `Except.error`) and the analytics request is never issued. -/
theorem token_missing_aborts (tokenResp : HttpResponse)
    (aResp : AnalyticsResponse) (mResp : List String → MetaResponse)
    (hok : tokenResp.ok = true)
    (hmiss : objGet tokenResp.body "access_token" = .vUndefined) :
    isFatal (runPipeline tokenResp aResp mResp).2 = true ∧
    ApiCall.analytics ∉ (runPipeline tokenResp aResp mResp).1 := by
  have hex : exchangeRefreshToken tokenResp =
      .error "Access token not present in refresh token response." := by
    rw [exchangeRefreshToken, hok, hmiss]
    rfl
  constructor
  · rw [runPipeline, hex]
    rfl
  · rw [runPipeline, hex]
    simp

/-- C8 witness: the abort property on a concrete ok-but-tokenless
response. -/
theorem token_missing_aborts_witness :
    isFatal (runPipeline tokenRespMissing aRespTrivial mRespTrivial).2
      = true ∧
    ApiCall.analytics ∉
      (runPipeline tokenRespMissing aRespTrivial mRespTrivial).1 :=
  token_missing_aborts tokenRespMissing aRespTrivial mRespTrivial rfl rfl

/-- C9: `standardize` always returns an object with exactly the eight
standard fields in order, discards every other input key, and applies the
documented defaults (`null`, `null`, `[]`, empty object, empty object) to
the five optional fields when they are absent from the input. -/
theorem standardize_shape (fs : List (String × JValue)) :
    objKeys (standardize (.vObj fs)) = stdKeys ∧
    (∀ k, k ∉ stdKeys → objGet (standardize (.vObj fs)) k = .vUndefined) ∧
    (objGet (.vObj fs) "created_at" = .vUndefined →
      objGet (standardize (.vObj fs)) "created_at" = .vNull) ∧
    (objGet (.vObj fs) "text" = .vUndefined →
      objGet (standardize (.vObj fs)) "text" = .vNull) ∧
    (objGet (.vObj fs) "hashtags" = .vUndefined →
      objGet (standardize (.vObj fs)) "hashtags" = .vArr []) ∧
    (objGet (.vObj fs) "metrics" = .vUndefined →
      objGet (standardize (.vObj fs)) "metrics" = .vObj []) ∧
    (objGet (.vObj fs) "extra" = .vUndefined →
      objGet (standardize (.vObj fs)) "extra" = .vObj []) := by
  refine ⟨rfl, ?_, ?_, ?_, ?_, ?_, ?_⟩
  · intro k hk
    simp only [stdKeys, List.mem_cons, List.not_mem_nil, or_false,
      not_or] at hk
    obtain ⟨h1, h2, h3, h4, h5, h6, h7, h8⟩ := hk
    simp [standardize, objGet, Ne.symm h1, Ne.symm h2, Ne.symm h3,
      Ne.symm h4, Ne.symm h5, Ne.symm h6, Ne.symm h7, Ne.symm h8]
  · intro h
    rw [show objGet (standardize (.vObj fs)) "created_at" =
          defaultTo .vNull (objGet (.vObj fs) "created_at") from rfl, h]
    rfl
  · intro h
    rw [show objGet (standardize (.vObj fs)) "text" =
          defaultTo .vNull (objGet (.vObj fs) "text") from rfl, h]
    rfl
  · intro h
    rw [show objGet (standardize (.vObj fs)) "hashtags" =
          defaultTo (.vArr []) (objGet (.vObj fs) "hashtags") from rfl, h]
    rfl
  · intro h
    rw [show objGet (standardize (.vObj fs)) "metrics" =
          defaultTo (.vObj []) (objGet (.vObj fs) "metrics") from rfl, h]
    rfl
  · intro h
    rw [show objGet (standardize (.vObj fs)) "extra" =
          defaultTo (.vObj []) (objGet (.vObj fs) "extra") from rfl, h]
    rfl

/-- When a video has no metadata entry, its record is kept and built from
the null/empty defaults. -/
lemma buildRecord_of_no_meta (mm : String → Option VideoMetadata)
    (r : MetricsRow) (h : mm r.videoId = none) :
    buildRecord mm r = some (standardize (.vObj
      [ ("platform", .vStr "youtube")
      , ("post_id", .vStr r.videoId)
      , ("permalink", .vStr ("https://www.youtube.com/watch?v=" ++ r.videoId))
      , ("created_at", .vNull)
      , ("text", .vNull)
      , ("hashtags", .vArr [])
      , ("metrics", metricsToJson r.metrics)
      , ("extra", .vObj [])
      ])) := by
  simp [buildRecord, metaDropped, h, optToJson, extraOf]

/-- The metadata map never holds an entry under the empty-string key:
items whose id is absent or falsy are skipped by `fetchVideoMetadata`. -/
lemma metadataMapOf_no_empty_key (items : List PayloadItem) :
    metadataMapOf items "" = none := by
  rw [metadataMapOf]
  generalize (none : Option VideoMetadata) = acc
  induction items generalizing acc with
  | nil => rfl
  | cons it its ih =>
      rw [List.foldl_cons]
      rcases hid : it.id with _ | i
      · simp only [hid]
        exact ih acc
      · simp only [hid]
        by_cases hi : i = ""
        · simp only [hi, if_pos]
          exact ih acc
        · rw [if_neg hi, if_neg hi]
          exact ih acc

/-- An input object carrying one standard key and one junk key. -/
def junkInput : List (String × JValue) :=
  [("platform", .vStr "youtube"), ("junk", .vNum 1)]

/-- C9 witness: the shape property on a concrete input with an extra
key — the key list is the eight standard fields, the junk key is
discarded, and the omitted `created_at` defaults to `null`. -/
theorem standardize_shape_witness :
    objKeys (standardize (.vObj junkInput)) = stdKeys ∧
    objGet (standardize (.vObj junkInput)) "junk" = .vUndefined ∧
    objGet (standardize (.vObj junkInput)) "created_at" = .vNull :=
  ⟨(standardize_shape junkInput).1,
   (standardize_shape junkInput).2.1 "junk" (by decide),
   (standardize_shape junkInput).2.2.1 rfl⟩

/-- Metadata with a present but empty-string privacyStatus. -/
def emptyPrivacyMeta : VideoMetadata :=
  { title := none, description := none, tags := [], publishedAt := none,
    privacyStatus := some "" }

/-- A metadata map holding `emptyPrivacyMeta` for video `v1`. -/
def cexMap : String → Option VideoMetadata := fun k =>
  if k = "v1" then some emptyPrivacyMeta else none

/-- A metrics row for video `v1`. -/
def cexRow : MetricsRow := { videoId := "v1", metrics := zeroMetrics }

/-- C1 counterexample: the metadata map records the present privacyStatus
`""` for video `v1` — which differs from `"public"` — yet the
normalization of its metrics row still yields one record, because the drop
test `meta?.privacyStatus && meta.privacyStatus !== 'public'` treats a
falsy (empty-string) privacyStatus like an absent one. -/
theorem privacy_filter_counterexample :
    (cexMap "v1").bind (fun m => m.privacyStatus) = some "" ∧
    (some "" : Option String) ≠ some "public" ∧
    (normalize cexMap [cexRow]).length = 1 := by
  refine ⟨rfl, by decide, rfl⟩

/-- C1 (amended): every record of the normalization output comes from a
metrics row whose recorded privacyStatus is absent/`null`, `"public"`, or
the empty string; a row whose metadata has a present nonempty
privacyStatus other than `"public"` yields no record; and a row with no
metadata match still yields a record with null/empty defaults. -/
theorem privacy_filter_invariant (mm : String → Option VideoMetadata)
    (rs : List MetricsRow) :
    (∀ rec ∈ normalize mm rs, ∃ r ∈ rs, buildRecord mm r = some rec ∧
       ((mm r.videoId).bind (fun m => m.privacyStatus) = none ∨
        (mm r.videoId).bind (fun m => m.privacyStatus) = some "public" ∨
        (mm r.videoId).bind (fun m => m.privacyStatus) = some "")) ∧
    (∀ r : MetricsRow, ∀ m s, mm r.videoId = some m →
       m.privacyStatus = some s → s ≠ "" → s ≠ "public" →
       buildRecord mm r = none) ∧
    (∀ r : MetricsRow, mm r.videoId = none →
       ∃ v, buildRecord mm r = some v ∧
         objGet v "created_at" = .vNull ∧ objGet v "text" = .vNull ∧
         objGet v "hashtags" = .vArr [] ∧ objGet v "extra" = .vObj []) := by
  refine ⟨?_, ?_, ?_⟩
  · intro rec hrec
    obtain ⟨r, hr, hb⟩ := List.mem_filterMap.mp hrec
    refine ⟨r, hr, hb, ?_⟩
    by_cases hd : metaDropped (mm r.videoId)
    · rw [buildRecord] at hb
      simp only [hd, if_pos] at hb
      exact Option.noConfusion hb
    · rcases hmm : mm r.videoId with _ | m
      · simp [hmm]
      · rcases hps : m.privacyStatus with _ | s
        · simp [hmm, hps]
        · rw [hmm] at hd
          simp only [metaDropped, hps, Bool.and_eq_true, bne_iff_ne,
            ne_eq, not_and, not_not, Bool.and_eq_false_imp,
            bne_eq_false_iff_eq] at hd
          rcases eq_or_ne s "" with he | he
          · simp [hmm, hps, he]
          · simp [hmm, hps, hd he]
  · intro r m s h1 h2 h3 h4
    rw [buildRecord]
    have hd : metaDropped (mm r.videoId) = true := by
      rw [h1]
      simp [metaDropped, h2, h3, h4]
    simp only [hd, if_pos]
  · intro r h
    exact ⟨_, buildRecord_of_no_meta mm r h, rfl, rfl, rfl, rfl⟩

/-- C1 witness: the amended invariant applied to a one-row input with no
metadata: the record exists and keeps the null/empty defaults. -/
theorem privacy_filter_invariant_witness :
    ∃ v, buildRecord (fun _ => none) cexRow = some v ∧
      objGet v "created_at" = .vNull ∧ objGet v "text" = .vNull ∧
      objGet v "hashtags" = .vArr [] ∧ objGet v "extra" = .vObj [] :=
  (privacy_filter_invariant (fun _ => none) [cexRow]).2.2 cexRow rfl

/-- A metrics row whose extracted video id is the empty string. -/
def emptyIdRow : MetricsRow := { videoId := "", metrics := zeroMetrics }

/-- C10: a metrics row with an empty-string video id is excluded from the
id list sent to metadata enrichment, yet still yields a record in the
normalization output, with `post_id = ""` and all metadata-derived fields
at their null/empty defaults (its id can never match a metadata entry,
since `fetchVideoMetadata` skips items with a falsy id). -/
theorem empty_video_id_record (items : List PayloadItem)
    (rs : List MetricsRow) (r : MetricsRow) (hr : r ∈ rs)
    (hid : r.videoId = "") :
    "" ∉ videoIdsOf rs ∧
    ∃ v, buildRecord (metadataMapOf items) r = some v ∧
      v ∈ normalize (metadataMapOf items) rs ∧
      objGet v "post_id" = .vStr "" ∧
      objGet v "created_at" = .vNull ∧ objGet v "text" = .vNull ∧
      objGet v "hashtags" = .vArr [] ∧ objGet v "extra" = .vObj [] := by
  constructor
  · simp [videoIdsOf]
  · have hmeta : metadataMapOf items r.videoId = none := by
      rw [hid]
      exact metadataMapOf_no_empty_key items
    have hb := buildRecord_of_no_meta (metadataMapOf items) r hmeta
    refine ⟨_, hb, List.mem_filterMap.mpr ⟨r, hr, hb⟩, ?_, rfl, rfl, rfl, rfl⟩
    rw [show objGet (standardize (.vObj
        [ ("platform", .vStr "youtube")
        , ("post_id", .vStr r.videoId)
        , ("permalink",
            .vStr ("https://www.youtube.com/watch?v=" ++ r.videoId))
        , ("created_at", .vNull)
        , ("text", .vNull)
        , ("hashtags", .vArr [])
        , ("metrics", metricsToJson r.metrics)
        , ("extra", .vObj [])
        ])) "post_id" = .vStr r.videoId from rfl, hid]

/-- C10 witness: the empty-id behavior on a concrete one-row input and an
empty metadata payload. -/
theorem empty_video_id_record_witness :
    "" ∉ videoIdsOf [emptyIdRow] ∧
    ∃ v, buildRecord (metadataMapOf []) emptyIdRow = some v ∧
      v ∈ normalize (metadataMapOf []) [emptyIdRow] ∧
      objGet v "post_id" = .vStr "" ∧
      objGet v "created_at" = .vNull ∧ objGet v "text" = .vNull ∧
      objGet v "hashtags" = .vArr [] ∧ objGet v "extra" = .vObj [] :=
  empty_video_id_record [] [emptyIdRow] emptyIdRow
    (List.mem_singleton.mpr rfl) rfl

end AnalyticsAgent
